import Mathlib

/-!
Shallow embedding of the command gateway of `christmas-mcp-mariadb`
(`lib/mcp.js`, v1.2.0 pool-based implementation): the statement risk
classification, the confirmation and read-only gates of the `execute_sql`
and `query_database` tools, the retrying executor `executeWithRetry`, the
response normalization into JSON envelopes, the `describe_table` tool's
parameterized statement, and the `cleanup` lifecycle handler.

Strings are modelled with Lean `String`; the JavaScript operations
`trim()`/`toUpperCase()`/`startsWith()` are embedded for the ASCII SQL
texts the gateway compares against.  JSON objects with optionally-present
keys are modelled as structures of `Option` fields (`none` = key absent).
-/

namespace ChristmasMcp

/-- JS `sql.trim().toUpperCase()` — the `trimmedSql` computed by both the
`query_database` and `execute_sql` handlers (mcp.js lines 103, 154).
Implemented on the character list so that it evaluates by kernel
reduction; faithful to the JS semantics on the ASCII SQL texts the
gateway compares against. -/
def jsTrimUpper (sql : String) : String :=
  ⟨(((sql.data.dropWhile Char.isWhitespace).reverse.dropWhile
      Char.isWhitespace).reverse).map Char.toUpper⟩

/-- JS `s.startsWith(p)`: `p` is a literal prefix of `s`. -/
def jsStartsWith (s p : String) : Bool := decide (s.data.take p.data.length = p.data)

/-- `isDangerous` from the `execute_sql` handler (mcp.js lines 155-158),
computed on the trimmed upper-cased SQL text. -/
def isDangerous (trimmedSql : String) : Bool :=
  jsStartsWith trimmedSql "DELETE" || jsStartsWith trimmedSql "UPDATE" ||
  jsStartsWith trimmedSql "DROP" || jsStartsWith trimmedSql "TRUNCATE"

/-- `isStructural` from the `execute_sql` handler (mcp.js lines 160-162). -/
def isStructural (trimmedSql : String) : Bool :=
  jsStartsWith trimmedSql "CREATE" || jsStartsWith trimmedSql "ALTER" ||
  jsStartsWith trimmedSql "INSERT"

/-- The read-only admission test of the `query_database` handler
(mcp.js line 104): the trimmed upper-cased text starts with one of
SELECT / SHOW / DESCRIBE / EXPLAIN. -/
def isReadOnlyQuery (trimmedSql : String) : Bool :=
  jsStartsWith trimmedSql "SELECT" || jsStartsWith trimmedSql "SHOW" ||
  jsStartsWith trimmedSql "DESCRIBE" || jsStartsWith trimmedSql "EXPLAIN"

/-- A result row as delivered by the driver: an association of column
names to cell values (the concrete cell representation is irrelevant to
the gateway, which forwards rows opaquely). -/
abbrev Row := List (String × String)

/-- A raw field-metadata packet from the driver; the handlers project it
to `{name, type, length}` (mcp.js lines 117-121). -/
structure RawField where
  name : String
  type : Nat
  length : Nat
  table : String
deriving DecidableEq, Repr

/-- The `{name, type, length}` projection the handlers apply to each
driver field packet. -/
structure OutField where
  name : String
  type : Nat
  length : Nat
deriving DecidableEq, Repr

/-- `field => ({name: field.name, type: field.type, length: field.length})`. -/
def projectField (f : RawField) : OutField := ⟨f.name, f.type, f.length⟩

/-- A driver write acknowledgement (mysql2 OkPacket): `affectedRows`,
`insertId`, `changedRows`, `warningCount`, each possibly absent
(`none` = JS `undefined`). -/
structure WriteInfo where
  affectedRows : Option Nat
  insertId : Option Nat
  changedRows : Option Nat
  warningCount : Option Nat
deriving DecidableEq, Repr

/-- The first component of a successful driver `execute`: either an array
of rows (`Array.isArray(result)` true) or a write acknowledgement. -/
inductive ResultBody where
  | rows (data : List Row)
  | write (w : WriteInfo)
deriving DecidableEq, Repr

/-- A successful driver execution `[rowsOrResult, fields]`; `fields` may
be `undefined`. -/
structure ExecOk where
  body : ResultBody
  fields : Option (List RawField)
deriving DecidableEq, Repr

/-- A driver execution error: `message` plus optional `code`. -/
structure DriverError where
  message : String
  code : Option String
deriving DecidableEq, Repr

/-- Outcome of one `pool.execute(sql, params)` call. -/
inductive DriverOutcome where
  | ok (r : ExecOk)
  | err (e : DriverError)
deriving DecidableEq, Repr

/-- The external driver/pool, modelled as a pure oracle indexed by the
attempt number (so tests can make attempt 1 fail and attempt 2 succeed)
and by the submitted SQL text and positional parameters. -/
abbrev Driver := Nat → String → List String → DriverOutcome

deriving instance DecidableEq for Except

/-- Trace of one `executeWithRetry` invocation: the final result
(`none` only in the vacuous `retries = 0` case, where the JS loop body
never runs), every `(sql, params)` call submitted to the pool, and the
backoff delays (ms) slept between attempts. -/
structure RetryTrace where
  result : Option (Except DriverError ExecOk)
  calls : List (String × List String)
  delaysMs : List Nat
deriving Repr

/-- The `for (let attempt = 1; attempt <= retries; attempt++)` loop of
`executeWithRetry` (mcp.js lines 65-82), with `remaining + 1` the number
of loop iterations still allowed (so `remaining = 0` means
`attempt === retries`, the branch that rethrows the error).  Every
caught error is retried after a fixed 1000 ms wait; the code never
inspects the error to distinguish transient from non-transient
failures. -/
def retryGo (drv : Driver) (sql : String) (params : List String) (attempt : Nat) :
    Nat → RetryTrace
  | 0 => { result := none, calls := [], delaysMs := [] }
  | remaining + 1 =>
    match drv attempt sql params with
    | .ok r => { result := some (.ok r), calls := [(sql, params)], delaysMs := [] }
    | .err e =>
      match remaining with
      | 0 => { result := some (.error e), calls := [(sql, params)], delaysMs := [] }
      | _ + 1 =>
        let rest := retryGo drv sql params (attempt + 1) remaining
        { result := rest.result
          calls := (sql, params) :: rest.calls
          delaysMs := 1000 :: rest.delaysMs }

/-- `executeWithRetry(sql, params = [], retries = 2)` (mcp.js lines
65-82): attempts start at 1 and run while `attempt <= retries`. -/
def executeWithRetry (drv : Driver) (sql : String) (params : List String)
    (retries : Nat) : RetryTrace :=
  retryGo drv sql params 1 retries

/-- The JSON response envelope each tool serializes; `none` models an
absent key.  One structure covers all the envelope shapes produced by
`query_database`, `execute_sql` and `describe_table`. -/
structure Envelope where
  success : Option Bool := none
  data : Option ResultBody := none
  rowCount : Option Nat := none
  fields : Option (List OutField) := none
  error : Option Bool := none
  message : Option String := none
  code : Option String := none
  sql : Option String := none
  requiresConfirmation : Option Bool := none
  affectedRows : Option Nat := none
  insertId : Option Nat := none
  changedRows : Option Nat := none
  warningCount : Option Nat := none
  fieldCount : Option Nat := none
  table : Option String := none
  columns : Option ResultBody := none
  columnCount : Option Nat := none
deriving DecidableEq, Repr

/-- One tool invocation: the envelope returned to the protocol layer and
the list of `(sql, params)` calls submitted to the database pool. -/
structure ToolRun where
  envelope : Envelope
  calls : List (String × List String)
deriving Repr

/-- The catch-branch envelope `{error, message, code: error.code ||
'SQL_ERROR', sql}` shared by the `query_database` and `execute_sql`
handlers (mcp.js lines 126-136 and 221-231). -/
def sqlErrorEnvelope (message : String) (code : Option String) (sql : String) : Envelope :=
  { error := some true
    message := some message
    code := some (code.getD "SQL_ERROR")
    sql := some sql }

/-- The JS `TypeError` message raised when destructuring the `undefined`
returned by a zero-iteration retry loop — unreachable with the fixed
`retries = 2` the handlers use. -/
def destructureUndefinedMsg : String := "undefined is not iterable"

/-- The success envelope of `execute_sql` (mcp.js lines 180-212):
`affectedRows: result.affectedRows || 0`, then `insertId` only when
truthy, `changedRows` only when not `undefined`, `warningCount` only
when positive, `data`/`rowCount` only for a nonempty rows array, and
`fields` only when nonempty. -/
def executeSqlSuccess (sql : String) (r : ExecOk) : Envelope :=
  let base : Envelope :=
    { success := some true
      sql := some sql
      affectedRows := some (match r.body with
        | .write w => w.affectedRows.getD 0
        | .rows _ => 0)
      fieldCount := some (match r.fields with
        | some fs => fs.length
        | none => 0) }
  let e1 : Envelope :=
    match r.body with
    | .write w =>
      let ea := match w.insertId with
        | some n => if n = 0 then base else { base with insertId := some n }
        | none => base
      let eb := match w.changedRows with
        | some n => { ea with changedRows := some n }
        | none => ea
      match w.warningCount with
      | some n => if 0 < n then { eb with warningCount := some n } else eb
      | none => eb
    | .rows l =>
      if 0 < l.length then
        { base with data := some (.rows l), rowCount := some l.length }
      else base
  match r.fields with
  | some fs => if 0 < fs.length then { e1 with fields := some (fs.map projectField) } else e1
  | none => e1

/-- The `execute_sql` tool handler (mcp.js lines 152-233): computes
`isDangerous` and `isStructural` on the trimmed upper-cased SQL (the
latter is computed but unused by the gate, as in the source), returns
the confirmation envelope when `isDangerous && !confirm`, and otherwise
runs `executeWithRetry(sql)` with the default `retries = 2` and
normalizes the outcome. -/
def execute_sql (drv : Driver) (sql : String) (confirm : Bool) : ToolRun :=
  let trimmedSql := jsTrimUpper sql
  let isDang := isDangerous trimmedSql
  let _isStruct := isStructural trimmedSql
  if isDang && !confirm then
    { envelope :=
        { error := some true
          message := some "This SQL statement is potentially dangerous. Set confirm=true to execute."
          sql := some sql
          requiresConfirmation := some true }
      calls := [] }
  else
    let tr := executeWithRetry drv sql [] 2
    match tr.result with
    | some (.ok r) => { envelope := executeSqlSuccess sql r, calls := tr.calls }
    | some (.error e) =>
      { envelope := sqlErrorEnvelope e.message e.code sql, calls := tr.calls }
    | none =>
      { envelope := sqlErrorEnvelope destructureUndefinedMsg none sql, calls := tr.calls }

/-- The success envelope of `query_database` (mcp.js lines 110-124):
`data: rows`, `rowCount: Array.isArray(rows) ? rows.length : 0`,
`fields: fields ? fields.map(...) : []`. -/
def queryDatabaseSuccess (r : ExecOk) : Envelope :=
  { success := some true
    data := some r.body
    rowCount := some (match r.body with
      | .rows l => l.length
      | .write _ => 0)
    fields := some (match r.fields with
      | some fs => fs.map projectField
      | none => []) }

/-- The `query_database` tool handler (mcp.js lines 100-138): rejects any
SQL whose trimmed upper-cased text does not start with SELECT / SHOW /
DESCRIBE / EXPLAIN (the thrown `Error` is caught by the handler's own
catch, which supplies code `'SQL_ERROR'`), otherwise runs
`executeWithRetry(sql)` with the default `retries = 2`. -/
def query_database (drv : Driver) (sql : String) : ToolRun :=
  let trimmedSql := jsTrimUpper sql
  if !jsStartsWith trimmedSql "SELECT" && !jsStartsWith trimmedSql "SHOW" &&
      !jsStartsWith trimmedSql "DESCRIBE" && !jsStartsWith trimmedSql "EXPLAIN" then
    { envelope :=
        sqlErrorEnvelope
          "Only SELECT, SHOW, DESCRIBE, and EXPLAIN queries are allowed with this tool"
          none sql
      calls := [] }
  else
    let tr := executeWithRetry drv sql [] 2
    match tr.result with
    | some (.ok r) => { envelope := queryDatabaseSuccess r, calls := tr.calls }
    | some (.error e) =>
      { envelope := sqlErrorEnvelope e.message e.code sql, calls := tr.calls }
    | none =>
      { envelope := sqlErrorEnvelope destructureUndefinedMsg none sql, calls := tr.calls }

/-- The catch-branch envelope of `describe_table` (mcp.js lines 298-310),
which reports `table` instead of `sql`. -/
def tableErrorEnvelope (message : String) (code : Option String) (table : String) : Envelope :=
  { error := some true
    message := some message
    code := some (code.getD "SQL_ERROR")
    table := some table }

/-- The `describe_table` tool handler (mcp.js lines 283-311): always
submits the constant SQL text `'DESCRIBE ??'` with the table identifier
in the positional-parameter list, then returns `{success, table,
columns: rows, columnCount: rows.length}` (`rows.length` is `undefined`,
hence absent, if the driver were to return a non-array result). -/
def describe_table (drv : Driver) (table : String) : ToolRun :=
  let tr := executeWithRetry drv "DESCRIBE ??" [table] 2
  match tr.result with
  | some (.ok r) =>
    { envelope :=
        { success := some true
          table := some table
          columns := some r.body
          columnCount := match r.body with
            | .rows l => some l.length
            | .write _ => none }
      calls := tr.calls }
  | some (.error e) =>
    { envelope := tableErrorEnvelope e.message e.code table, calls := tr.calls }
  | none =>
    { envelope := tableErrorEnvelope destructureUndefinedMsg none table, calls := tr.calls }

/-- The state the `cleanup` handler (mcp.js lines 397-406) closes over:
whether the `pool` variable was assigned (truthy) and whether the
underlying pool is still open.  The source never clears `pool` nor sets
a one-shot flag after closing. -/
structure PoolHandle where
  created : Bool
  isOpen : Bool
deriving DecidableEq, Repr

/-- Driver behaviour of `pool.end()`: closing an open pool succeeds;
calling `end()` again on an already-closed mysql2 pool reports an
error. -/
def poolEnd (p : PoolHandle) : PoolHandle × Option String :=
  if p.isOpen then ({ p with isOpen := false }, none)
  else (p, some "Pool is closed.")

/-- Observable behaviour of one `cleanup()` invocation: the pool state it
leaves behind, how many times it invoked `pool.end()`, the error it
caught (and logged) if any, and whether the invocation itself threw. -/
structure CleanupStep where
  state : PoolHandle
  endCalls : Nat
  caught : Option String
  threw : Bool
deriving DecidableEq, Repr

/-- The `cleanup` lifecycle handler (mcp.js lines 397-406):
`if (pool) { try { await pool.end() } catch (e) { log(e) } }` — any
close error is swallowed, and nothing prevents a second invocation from
calling `pool.end()` again. -/
def cleanup (p : PoolHandle) : CleanupStep :=
  if p.created then
    let r := poolEnd p
    { state := r.1, endCalls := 1, caught := r.2, threw := false }
  else
    { state := p, endCalls := 0, caught := none, threw := false }

/-- A driver double that always succeeds with an empty row set. -/
def okRowsDriver : Driver := fun _ _ _ => .ok ⟨.rows [], none⟩

/-- A driver double that always fails with a (non-transient) SQL syntax
error, the kind mysql2 reports as `ER_PARSE_ERROR`. -/
def syntaxErrorDriver : Driver := fun _ _ _ =>
  .err ⟨"You have an error in your SQL syntax", some "ER_PARSE_ERROR"⟩

lemma jsStartsWith_head (t p : String) (h : jsStartsWith t p = true)
    (hne : p.data ≠ []) : t.data.head? = p.data.head? := by
  simp only [jsStartsWith, decide_eq_true_eq] at h
  cases hp : p.data with
  | nil => exact absurd hp hne
  | cons c ps =>
    rw [hp] at h
    cases ht : t.data with
    | nil => rw [ht] at h; simp at h
    | cons x xs =>
      rw [ht] at h
      simp only [List.length_cons, List.take_succ_cons, List.cons.injEq] at h
      simp [h.1]

lemma isStructural_isDangerous_false (t : String)
    (h : isStructural t = true) : isDangerous t = false := by
  by_contra hcon
  rw [Bool.not_eq_false] at hcon
  simp only [isStructural, Bool.or_eq_true] at h
  simp only [isDangerous, Bool.or_eq_true] at hcon
  rcases h with (h1 | h1) | h1 <;> rcases hcon with ((h2 | h2) | h2) | h2 <;>
    exact absurd ((jsStartsWith_head t _ h1 (by decide)).symm.trans
      (jsStartsWith_head t _ h2 (by decide))) (by decide)

lemma retryGo_calls_ne_nil (drv : Driver) (sql : String) (params : List String)
    (attempt remaining : Nat) :
    (retryGo drv sql params attempt (remaining + 1)).calls ≠ [] := by
  rw [retryGo]
  cases drv attempt sql params with
  | ok r => simp
  | err e => cases remaining with
    | zero => simp
    | succ n => simp

lemma retryGo_const_err (e : DriverError) (sql : String) (params : List String) :
    ∀ remaining attempt,
      retryGo (fun _ _ _ => .err e) sql params attempt (remaining + 1) =
        { result := some (.error e)
          calls := List.replicate (remaining + 1) (sql, params)
          delaysMs := List.replicate remaining 1000 } := by
  intro remaining
  induction remaining with
  | zero => intro attempt; rw [retryGo]; rfl
  | succ n ih =>
    intro attempt
    rw [retryGo]
    simp only [ih (attempt + 1)]
    rfl

lemma executeSqlSuccess_proj (sql : String) (r : ExecOk) :
    (executeSqlSuccess sql r).requiresConfirmation = none ∧
    (executeSqlSuccess sql r).error = none ∧
    (executeSqlSuccess sql r).success = some true ∧
    (executeSqlSuccess sql r).sql = some sql := by
  rcases r with ⟨body, flds⟩
  rcases body with l | w
  · rcases flds with _ | fs
    · simp only [executeSqlSuccess]
      split <;> simp
    · simp only [executeSqlSuccess]
      split <;> split <;> simp
  · rcases w with ⟨ar, ii, cr, wc⟩
    rcases ii with _ | n <;> rcases cr with _ | m <;> rcases wc with _ | k <;>
      rcases flds with _ | fs <;>
      simp only [executeSqlSuccess] <;> repeat' split
    all_goals simp

lemma sqlErrorEnvelope_proj (message : String) (code : Option String) (sql : String) :
    (sqlErrorEnvelope message code sql).requiresConfirmation = none ∧
    (sqlErrorEnvelope message code sql).error = some true := by
  simp [sqlErrorEnvelope]

lemma executeWithRetry_const_ok (r : ExecOk) (sql : String) (params : List String) :
    executeWithRetry (fun _ _ _ => .ok r) sql params 2 =
      { result := some (.ok r), calls := [(sql, params)], delaysMs := [] } := rfl

lemma retryGo_calls_const (drv : Driver) (sql : String) (params : List String) :
    ∀ fuel attempt c, c ∈ (retryGo drv sql params attempt fuel).calls →
      c = (sql, params) := by
  intro fuel
  induction fuel with
  | zero => intro attempt c hc; rw [retryGo] at hc; simp at hc
  | succ n ih =>
    intro attempt c hc
    rw [retryGo] at hc
    rcases hdr : drv attempt sql params with r | e
    · rw [hdr] at hc; simp at hc; simp [hc]
    · rw [hdr] at hc
      cases n with
      | zero => simp at hc; simp [hc]
      | succ m =>
        simp only [List.mem_cons] at hc
        rcases hc with hc | hc
        · exact hc
        · exact ih (attempt + 1) c hc

/-- Either-branch reduction of `execute_sql` when the confirmation gate does
not fire: the run is the normalized outcome of `executeWithRetry(sql)` with
`retries = 2`, and the database is called at least once. -/
lemma execute_sql_ungated (drv : Driver) (sql : String) (confirm : Bool)
    (hgate : (isDangerous (jsTrimUpper sql) && !confirm) = false) :
    (execute_sql drv sql confirm).calls = (executeWithRetry drv sql [] 2).calls ∧
    (execute_sql drv sql confirm).calls ≠ [] ∧
    (execute_sql drv sql confirm).envelope.requiresConfirmation = none := by
  have hcalls : (executeWithRetry drv sql [] 2).calls ≠ [] :=
    retryGo_calls_ne_nil drv sql [] 1 1
  rcases hres : (executeWithRetry drv sql [] 2).result with _ | (e | r) <;>
    simp only [execute_sql, hgate, if_false, Bool.false_eq_true, hres] <;>
    refine ⟨by trivial, hcalls, ?_⟩
  · simp [sqlErrorEnvelope]
  · simp [sqlErrorEnvelope]
  · exact (executeSqlSuccess_proj sql r).1

end ChristmasMcp

namespace ChristmasMcp

/-- C1, counterexample: the SQL text `GRANT ALL ON db TO u` has an
unrecognized leading keyword (it is classified neither dangerous, nor
structural, nor read-only), yet `execute_sql` with `confirm = false` does
NOT return a requires-confirmation envelope: it submits the statement to
the database. -/
theorem C1_counterexample :
    isDangerous (jsTrimUpper "GRANT ALL ON db TO u") = false ∧
    isStructural (jsTrimUpper "GRANT ALL ON db TO u") = false ∧
    isReadOnlyQuery (jsTrimUpper "GRANT ALL ON db TO u") = false ∧
    (execute_sql okRowsDriver "GRANT ALL ON db TO u" false).calls
      = [("GRANT ALL ON db TO u", [])] ∧
    (execute_sql okRowsDriver "GRANT ALL ON db TO u" false).envelope.requiresConfirmation
      = none := by
  decide

/-- C1, amended: for every SQL string whose trimmed upper-cased text starts
with none of the eleven recognized keywords, the `execute_sql` tool does
NOT require confirmation: with `confirm = false` it submits the statement
to the database (at least one pool call) and its envelope has no
`requiresConfirmation` key — unknown statements are silently permitted,
because the gate tests only the dangerous prefixes. -/
theorem C1_unrecognized_executed (drv : Driver) (sql : String)
    (hd : isDangerous (jsTrimUpper sql) = false)
    (_hs : isStructural (jsTrimUpper sql) = false)
    (_hr : isReadOnlyQuery (jsTrimUpper sql) = false) :
    (execute_sql drv sql false).calls ≠ [] ∧
    (execute_sql drv sql false).envelope.requiresConfirmation = none := by
  have h := execute_sql_ungated drv sql false (by simp [hd])
  exact ⟨h.2.1, h.2.2⟩

/-- C1, witness for the amended theorem at `GRANT ALL ON db TO u`. -/
theorem C1_unrecognized_executed_witness :
    (execute_sql okRowsDriver "GRANT ALL ON db TO u" false).calls ≠ [] ∧
    (execute_sql okRowsDriver "GRANT ALL ON db TO u" false).envelope.requiresConfirmation
      = none :=
  C1_unrecognized_executed okRowsDriver "GRANT ALL ON db TO u"
    (by decide) (by decide) (by decide)

/-- C2, counterexample: a statement that always fails with a non-transient
SQL syntax error (`ER_PARSE_ERROR`) is nevertheless executed twice by the
retrying executor with its default `retries = 2` — not returned after
exactly one attempt — with a 1000 ms wait slept in between. -/
theorem C2_counterexample :
    (executeWithRetry syntaxErrorDriver "SELEC 1" [] 2).calls.length = 2 ∧
    (executeWithRetry syntaxErrorDriver "SELEC 1" [] 2).delaysMs = [1000] ∧
    (executeWithRetry syntaxErrorDriver "SELEC 1" [] 2).result =
      some (.error ⟨"You have an error in your SQL syntax", some "ER_PARSE_ERROR"⟩) := by
  decide

/-- C2, amended: the retrying executor does not distinguish transient from
non-transient failures: every statement whose execution always fails —
whatever the error's code, SQL syntax errors included — is attempted
exactly `retries` times (`maxAttempts`, default 2), with a fixed 1000 ms
wait between consecutive attempts, and the failure returned is the last
error. -/
theorem C2_retries_every_failure (e : DriverError) (sql : String)
    (params : List String) (retries : Nat) (h : 1 ≤ retries) :
    executeWithRetry (fun _ _ _ => .err e) sql params retries =
      { result := some (.error e)
        calls := List.replicate retries (sql, params)
        delaysMs := List.replicate (retries - 1) 1000 } := by
  obtain ⟨n, rfl⟩ : ∃ n, retries = n + 1 := ⟨retries - 1, by omega⟩
  simpa [executeWithRetry] using retryGo_const_err e sql params n 1

/-- C2, witness for the amended theorem: the syntax-error driver at the
executor's default `retries = 2`. -/
theorem C2_retries_every_failure_witness :
    executeWithRetry
        (fun _ _ _ =>
          .err ⟨"You have an error in your SQL syntax", some "ER_PARSE_ERROR"⟩)
        "SELEC 1" [] 2 =
      { result := some (.error ⟨"You have an error in your SQL syntax",
                        some "ER_PARSE_ERROR"⟩)
        calls := List.replicate 2 ("SELEC 1", [])
        delaysMs := List.replicate 1 1000 } :=
  C2_retries_every_failure
    ⟨"You have an error in your SQL syntax", some "ER_PARSE_ERROR"⟩
    "SELEC 1" [] 2 (by decide)

/-- C3: for every SQL string classified dangerous (trimmed upper-cased
text beginning with DELETE, UPDATE, DROP or TRUNCATE), calling
`execute_sql` with `confirm = false` returns an envelope carrying
`requiresConfirmation: true` and the original sql, and submits zero calls
to the database pool. -/
theorem C3_dangerous_unconfirmed_gated (drv : Driver) (sql : String)
    (hd : isDangerous (jsTrimUpper sql) = true) :
    (execute_sql drv sql false).calls = [] ∧
    (execute_sql drv sql false).envelope.requiresConfirmation = some true ∧
    (execute_sql drv sql false).envelope.sql = some sql := by
  simp [execute_sql, hd]

/-- C3, witness at `DELETE FROM t`. -/
theorem C3_dangerous_unconfirmed_gated_witness :
    (execute_sql okRowsDriver "DELETE FROM t" false).calls = [] ∧
    (execute_sql okRowsDriver "DELETE FROM t" false).envelope.requiresConfirmation
      = some true ∧
    (execute_sql okRowsDriver "DELETE FROM t" false).envelope.sql
      = some "DELETE FROM t" :=
  C3_dangerous_unconfirmed_gated okRowsDriver "DELETE FROM t" (by decide)

/-- C4: for every SQL string whose trimmed upper-cased text does not begin
with SELECT, SHOW, DESCRIBE or EXPLAIN, the `query_database` tool rejects
the call before any execution: it returns a policy error envelope with
`error: true`, a message, code `SQL_ERROR` and the original sql, and
submits zero calls to the database pool. -/
theorem C4_query_rejects_non_read_only (drv : Driver) (sql : String)
    (hr : isReadOnlyQuery (jsTrimUpper sql) = false) :
    (query_database drv sql).calls = [] ∧
    (query_database drv sql).envelope.error = some true ∧
    (query_database drv sql).envelope.message =
      some "Only SELECT, SHOW, DESCRIBE, and EXPLAIN queries are allowed with this tool" ∧
    (query_database drv sql).envelope.code = some "SQL_ERROR" ∧
    (query_database drv sql).envelope.sql = some sql := by
  simp only [isReadOnlyQuery, Bool.or_eq_false_iff] at hr
  obtain ⟨⟨⟨h1, h2⟩, h3⟩, h4⟩ := hr
  simp [query_database, sqlErrorEnvelope, h1, h2, h3, h4]

/-- C4, witness at `DELETE FROM t`. -/
theorem C4_query_rejects_non_read_only_witness :
    (query_database okRowsDriver "DELETE FROM t").calls = [] ∧
    (query_database okRowsDriver "DELETE FROM t").envelope.error = some true ∧
    (query_database okRowsDriver "DELETE FROM t").envelope.message =
      some "Only SELECT, SHOW, DESCRIBE, and EXPLAIN queries are allowed with this tool" ∧
    (query_database okRowsDriver "DELETE FROM t").envelope.code = some "SQL_ERROR" ∧
    (query_database okRowsDriver "DELETE FROM t").envelope.sql = some "DELETE FROM t" :=
  C4_query_rejects_non_read_only okRowsDriver "DELETE FROM t" (by decide)

/-- C5, counterexample: the requires-confirmation envelope produced for the
dangerous, unconfirmed statement `DELETE FROM t` IS error-flagged — it
carries `error: true` — contradicting the claim that it is a
non-error-flagged response. -/
theorem C5_counterexample :
    (execute_sql okRowsDriver "DELETE FROM t" false).envelope.requiresConfirmation
      = some true ∧
    (execute_sql okRowsDriver "DELETE FROM t" false).envelope.error = some true := by
  decide

/-- C5, amended: the requires-confirmation envelope is structured and
distinguishable from execution-failure envelopes, but by its
`requiresConfirmation: true` key alone — not by the absence of an error
flag: it carries `error: true` exactly as a failure envelope does, while
failure envelopes (here produced by running a dangerous statement with
`confirm = true` against an always-failing driver) have no
`requiresConfirmation` key. -/
theorem C5_confirmation_envelope_error_flagged (drv : Driver) (sql : String)
    (e : DriverError) (hd : isDangerous (jsTrimUpper sql) = true) :
    ((execute_sql drv sql false).envelope.requiresConfirmation = some true ∧
     (execute_sql drv sql false).envelope.error = some true) ∧
    ((execute_sql (fun _ _ _ => .err e) sql true).envelope.requiresConfirmation = none ∧
     (execute_sql (fun _ _ _ => .err e) sql true).envelope.error = some true) := by
  constructor
  · constructor <;> simp [execute_sql, hd]
  · have htr : (executeWithRetry (fun _ _ _ => .err e) sql [] 2).result
        = some (.error e) := by
      have h2 := retryGo_const_err e sql [] 1 1
      simp [executeWithRetry, h2]
    constructor <;> simp [execute_sql, htr, sqlErrorEnvelope]

/-- C5, witness at `DELETE FROM t`. -/
theorem C5_confirmation_envelope_error_flagged_witness :
    ((execute_sql okRowsDriver "DELETE FROM t" false).envelope.requiresConfirmation
        = some true ∧
     (execute_sql okRowsDriver "DELETE FROM t" false).envelope.error = some true) ∧
    ((execute_sql
        (fun _ _ _ => .err ⟨"Table t does not exist", some "ER_NO_SUCH_TABLE"⟩)
        "DELETE FROM t" true).envelope.requiresConfirmation = none ∧
     (execute_sql
        (fun _ _ _ => .err ⟨"Table t does not exist", some "ER_NO_SUCH_TABLE"⟩)
        "DELETE FROM t" true).envelope.error = some true) :=
  C5_confirmation_envelope_error_flagged okRowsDriver "DELETE FROM t"
    ⟨"Table t does not exist", some "ER_NO_SUCH_TABLE"⟩ (by decide)

lemma executeSqlSuccess_write_fields (sql : String) (w : WriteInfo)
    (fs : Option (List RawField)) :
    (executeSqlSuccess sql ⟨.write w, fs⟩).success = some true ∧
    (executeSqlSuccess sql ⟨.write w, fs⟩).sql = some sql ∧
    (executeSqlSuccess sql ⟨.write w, fs⟩).affectedRows
      = some (w.affectedRows.getD 0) ∧
    (executeSqlSuccess sql ⟨.write w, fs⟩).insertId
      = w.insertId.bind (fun n => if n = 0 then none else some n) ∧
    (executeSqlSuccess sql ⟨.write w, fs⟩).changedRows = w.changedRows ∧
    (executeSqlSuccess sql ⟨.write w, fs⟩).warningCount
      = w.warningCount.bind (fun n => if 0 < n then some n else none) := by
  rcases w with ⟨ar, ii, cr, wc⟩
  rcases ii with _ | n <;> rcases cr with _ | m <;> rcases wc with _ | k <;>
    rcases fs with _ | fs <;>
    simp only [executeSqlSuccess] <;> repeat' split
  all_goals simp_all

/-- C6: for every write result the `execute_sql` tool normalizes, the
success envelope carries `success: true`, the original sql, and
`affectedRows` (the driver's value, defaulted to 0 when undefined); it
carries `insertId` exactly when the driver's `insertId` is defined and
nonzero, `changedRows` exactly when the driver's `changedRows` is defined
(including 0), and `warningCount` exactly when the driver's
`warningCount` is defined and positive; otherwise those keys are absent. -/
theorem C6_write_result_normalization (sql : String) (w : WriteInfo)
    (fs : Option (List RawField)) :
    (execute_sql (fun _ _ _ => .ok ⟨.write w, fs⟩) sql true).envelope.success
      = some true ∧
    (execute_sql (fun _ _ _ => .ok ⟨.write w, fs⟩) sql true).envelope.sql
      = some sql ∧
    (execute_sql (fun _ _ _ => .ok ⟨.write w, fs⟩) sql true).envelope.affectedRows
      = some (w.affectedRows.getD 0) ∧
    (execute_sql (fun _ _ _ => .ok ⟨.write w, fs⟩) sql true).envelope.insertId
      = w.insertId.bind (fun n => if n = 0 then none else some n) ∧
    (execute_sql (fun _ _ _ => .ok ⟨.write w, fs⟩) sql true).envelope.changedRows
      = w.changedRows ∧
    (execute_sql (fun _ _ _ => .ok ⟨.write w, fs⟩) sql true).envelope.warningCount
      = w.warningCount.bind (fun n => if 0 < n then some n else none) := by
  have henv : (execute_sql (fun _ _ _ => .ok ⟨.write w, fs⟩) sql true).envelope
      = executeSqlSuccess sql ⟨.write w, fs⟩ := by
    simp [execute_sql, executeWithRetry_const_ok ⟨.write w, fs⟩ sql []]
  rw [henv]
  exact executeSqlSuccess_write_fields sql w fs

/-- C7, counterexample: after a first `cleanup` has closed the pool, a
second `cleanup` invocation DOES attempt to close the already-closed pool
again — it calls `pool.end()` once more (there is no one-shot guard and
the `pool` variable is never cleared), and the resulting driver error is
caught and logged. -/
theorem C7_counterexample :
    (cleanup (cleanup ⟨true, true⟩).state).endCalls = 1 ∧
    (cleanup (cleanup ⟨true, true⟩).state).caught = some "Pool is closed." := by
  decide

/-- C7, amended: shutdown is idempotent only in the weaker sense that no
error surfaces: for every created pool, both the first and the second
`cleanup` invocation complete without throwing (any `pool.end()` error is
caught and logged) — but the second invocation does re-invoke
`pool.end()` on the already-closed pool rather than skipping it. -/
theorem C7_cleanup_no_error_but_reattempts (p : PoolHandle)
    (hc : p.created = true) :
    (cleanup p).threw = false ∧
    (cleanup (cleanup p).state).threw = false ∧
    (cleanup (cleanup p).state).endCalls = 1 := by
  rcases p with ⟨c, o⟩
  subst hc
  cases o <;> decide

/-- C7, witness at a freshly created, open pool. -/
theorem C7_cleanup_no_error_but_reattempts_witness :
    (cleanup ⟨true, true⟩).threw = false ∧
    (cleanup (cleanup ⟨true, true⟩).state).threw = false ∧
    (cleanup (cleanup ⟨true, true⟩).state).endCalls = 1 :=
  C7_cleanup_no_error_but_reattempts ⟨true, true⟩ rfl

/-- C8: every `(sql, params)` call the `describe_table` tool submits to
the database pool has the constant SQL text `DESCRIBE ??` — independent
of the table-name input — with the table identifier passed only in the
positional-parameter list; it is never concatenated into the SQL text. -/
theorem C8_describe_table_parameterized (drv : Driver) (table : String)
    (c : String × List String) (hc : c ∈ (describe_table drv table).calls) :
    c.1 = "DESCRIBE ??" ∧ c.2 = [table] := by
  have hmem : c ∈ (executeWithRetry drv "DESCRIBE ??" [table] 2).calls := by
    rcases hres : (executeWithRetry drv "DESCRIBE ??" [table] 2).result
      with _ | (e | r) <;>
      simpa only [describe_table, hres] using hc
  have := retryGo_calls_const drv "DESCRIBE ??" [table] 2 1 c hmem
  simp [this]

/-- C8, witness: the single call made for table `users`. -/
theorem C8_describe_table_parameterized_witness :
    (("DESCRIBE ??", ["users"]) : String × List String).1 = "DESCRIBE ??" ∧
    (("DESCRIBE ??", ["users"]) : String × List String).2 = ["users"] :=
  C8_describe_table_parameterized okRowsDriver "users"
    ("DESCRIBE ??", ["users"]) (by decide)

/-- C9: structural statements bypass the confirmation gate: for every SQL
string whose trimmed upper-cased text begins with CREATE, ALTER or
INSERT, `execute_sql` with `confirm = false` proceeds to execute the
statement (at least one pool call, no `requiresConfirmation` key) — the
confirm flag gates only the dangerous tier. -/
theorem C9_structural_bypasses_gate (drv : Driver) (sql : String)
    (hs : isStructural (jsTrimUpper sql) = true) :
    (execute_sql drv sql false).calls ≠ [] ∧
    (execute_sql drv sql false).envelope.requiresConfirmation = none := by
  have hd : isDangerous (jsTrimUpper sql) = false :=
    isStructural_isDangerous_false _ hs
  have h := execute_sql_ungated drv sql false (by simp [hd])
  exact ⟨h.2.1, h.2.2⟩

/-- C9, witness at `CREATE TABLE t (x INT)`. -/
theorem C9_structural_bypasses_gate_witness :
    (execute_sql okRowsDriver "CREATE TABLE t (x INT)" false).calls ≠ [] ∧
    (execute_sql okRowsDriver "CREATE TABLE t (x INT)" false).envelope.requiresConfirmation
      = none :=
  C9_structural_bypasses_gate okRowsDriver "CREATE TABLE t (x INT)" (by decide)

/-- C10: risk classification in both tools is by string prefix, not by
leading token: every SQL string whose trimmed upper-cased text begins
with the characters `SELECT` — with or without a separator before any
further characters, so in particular continuations such as `SELECTED x`
— is admitted by the `query_database` read-only gate and reaches the
database, and every SQL string whose trimmed upper-cased text begins
with the characters `DELETE` — in particular `DELETED x` — is classified
dangerous and triggers the `execute_sql` confirmation gate (zero
database calls, `requiresConfirmation: true`) when `confirm = false`. -/
theorem C10_prefix_classification (drv : Driver) (sqlQ sqlE : String)
    (hq : jsStartsWith (jsTrimUpper sqlQ) "SELECT" = true)
    (he : jsStartsWith (jsTrimUpper sqlE) "DELETE" = true) :
    isReadOnlyQuery (jsTrimUpper sqlQ) = true ∧
    (query_database drv sqlQ).calls ≠ [] ∧
    isDangerous (jsTrimUpper sqlE) = true ∧
    (execute_sql drv sqlE false).calls = [] ∧
    (execute_sql drv sqlE false).envelope.requiresConfirmation = some true := by
  have hro : isReadOnlyQuery (jsTrimUpper sqlQ) = true := by
    simp [isReadOnlyQuery, hq]
  have hd : isDangerous (jsTrimUpper sqlE) = true := by
    simp [isDangerous, he]
  refine ⟨hro, ?_, hd, by simp [execute_sql, hd], by simp [execute_sql, hd]⟩
  have hcalls : (executeWithRetry drv sqlQ [] 2).calls ≠ [] :=
    retryGo_calls_ne_nil drv sqlQ [] 1 1
  rcases hres : (executeWithRetry drv sqlQ [] 2).result with _ | (e | r) <;>
    simp only [query_database, hq, Bool.not_true, Bool.false_and,
      Bool.false_eq_true, if_false, hres] <;>
    exact hcalls

/-- C10, witness at the claim's example inputs `SELECTED x` and
`DELETED x`: both carry the keyword as a fused prefix with no separator,
yet are classified as if they began with the keyword token. -/
theorem C10_prefix_classification_witness :
    isReadOnlyQuery (jsTrimUpper "SELECTED x") = true ∧
    (query_database okRowsDriver "SELECTED x").calls ≠ [] ∧
    isDangerous (jsTrimUpper "DELETED x") = true ∧
    (execute_sql okRowsDriver "DELETED x" false).calls = [] ∧
    (execute_sql okRowsDriver "DELETED x" false).envelope.requiresConfirmation
      = some true :=
  C10_prefix_classification okRowsDriver "SELECTED x" "DELETED x"
    (by decide) (by decide)

end ChristmasMcp

